import Mathlib

/-!
Shallow embedding of the 123timelock-server stateless delayed-unlock token
protocol (files `src/utils.js`, `src/crypto.js`, `src/temp-token.js`,
`src/express.js`).  The keyed MAC (`hmac`), the sealed-box decryption
(`decrypt`), the wall clock (`Date.now`) and the ISO minute-bucket
formatter (`getISOMin` applied to a `Date`) are the external capabilities
of the protocol; they are passed in as function parameters (`mac`,
`unseal`, `now`, `isoMin`).  JS numbers are idealised as exact integers
(`ℤ`, milliseconds) and exact rationals (`ℚ`); `NaN` is modelled by
`Option ℤ` with `none` for `NaN` (and for the invalid `Date`), matching
how `parseInt` failures propagate in the source.
-/

/-- Value of the longest leading run of decimal digits, `none` when there is
no leading digit (the `NaN` outcome of `parseInt`). -/
def digitsVal (l : List Char) : Option ℕ :=
  let ds := l.takeWhile Char.isDigit
  if ds.isEmpty then none
  else some (ds.foldl (fun a c => a * 10 + (c.toNat - '0'.toNat)) 0)

/-- JS `parseInt(s, 10)`: skip leading whitespace, optional sign, longest
digit run; `none` models `NaN`. -/
def jsParseInt (s : String) : Option ℤ :=
  match s.data.dropWhile Char.isWhitespace with
  | '-' :: rest => (digitsVal rest).map (fun n => -(n : ℤ))
  | '+' :: rest => (digitsVal rest).map (fun n => (n : ℤ))
  | l => (digitsVal l).map (fun n => (n : ℤ))

/-- JS `v || d` on numbers: `0` and `NaN` are falsy. -/
def jsNumOr (v : Option ℤ) (d : ℤ) : ℤ :=
  match v with
  | some x => if x = 0 then d else x
  | none => d

/-- JS `a || b` on possibly-undefined strings: `undefined` and `""` are falsy. -/
def jsStrOr (a b : Option String) : Option String :=
  match a with
  | some x => if x = "" then b else some x
  | none => b

/-- JS `s || d` on strings: the empty string falls back to the default. -/
def jsStrOrDefault (s d : String) : String :=
  if s = "" then d else s

/-- JS number-to-string coercion for the integers used by the protocol;
`none` renders as `NaN` (template interpolation of an invalid date). -/
def numStr : Option ℤ → String
  | none => "NaN"
  | some n => toString n

/-- Source `padDigits(number, digits)` from `src/utils.js`: left-pad the decimal
rendering with zeros up to `digits` characters. -/
def padDigits (n : Option ℤ) (digits : ℕ) : String :=
  String.mk (List.replicate (digits - (numStr n).length) '0') ++ numStr n

/-- Source `reverse(str)` from `src/utils.js`. -/
def reverse (s : String) : String :=
  String.mk s.data.reverse

/-- Source `hmac.replace(/[a-z]/gi, "")` in `getTimeToken`: drop ASCII letters. -/
def stripLetters (s : String) : String :=
  String.mk (s.data.filter (fun c => !c.isAlpha))

/-- The cosmetic separator fold `split("").map((e, i) => i % 5 == 4 ? e + "_" : e).join("")`
used by `getTimeToken` (and `genSalt`): an underscore is appended after
every character whose index is congruent to 4 mod 5. -/
def fmtAux : ℕ → List Char → List Char
  | _, [] => []
  | i, c :: cs => (if i % 5 = 4 then [c, '_'] else [c]) ++ fmtAux (i + 1) cs

/-- JS `%` (remainder with the sign of the dividend, truncating quotient). -/
def jsRem (a b : ℤ) : ℤ :=
  a - b * Int.tdiv a b

/-- JS `Math.round`: half-way cases round toward positive infinity. -/
def jsRound (q : ℚ) : ℤ :=
  ⌊q + 1 / 2⌋

/-- JS `ToInteger` as applied by `TimeClip` when a computed time value is
stored in a `Date`: truncation toward zero. -/
def jsTrunc (q : ℚ) : ℤ :=
  if 0 ≤ q then ⌊q⌋ else ⌈q⌉

/-- Decimal rendering of the number `p / 1000` (the seconds value that
`parseTimeSafeSec` interpolates into the MAC message), for the
nonnegative millisecond counts the protocol produces: at most three
fractional digits, trailing zeros dropped. -/
def msToSecString (p : ℤ) : String :=
  if jsRem p 1000 = 0 then toString (Int.tdiv p 1000)
  else
    toString (Int.tdiv p 1000) ++ "." ++
      String.mk ((padDigits (some (jsRem p 1000)) 3).data.reverse.dropWhile (fun c => c = '0')).reverse

/-- The normalized delay in milliseconds: `Math.max(parseTime(e) || 60 * 1000, 60 * 1000)`
from `parseTimeSafeSec` in `src/utils.js`.  `parseTime` (the vendored
`parse-duration` library) is the capability `pt`, returning milliseconds
or `none` when unparsable. -/
def parseTimeSafeMs (pt : String → Option ℤ) (e : String) : ℤ :=
  max (jsNumOr (pt e) 60000) 60000

/-- Source `parseTimeSafeSec(e)` from `src/utils.js`: the normalized delay in
seconds, clamped to a 60-second floor. -/
def parseTimeSafeSec (pt : String → Option ℤ) (e : String) : ℚ :=
  (parseTimeSafeMs pt e : ℚ) / 1000

/-- Source `fromSafeURL(text)` from `src/utils.js`: the three chained
single-character global replaces
(`-` to `+`, `_` to `/`, `~` to `=`) are one character-wise map, since no
replacement character is itself replaced later. -/
def fromSafeURL (text : String) : String :=
  String.mk (text.data.map (fun c =>
    if c = '-' then '+' else if c = '_' then '/' else if c = '~' then '=' else c))

/-- The message MAC-ed by `getTimeToken`:
`"token_" + salt + parseTimeSafeSec(time_string)`. -/
def tokenMsg (pt : String → Option ℤ) (salt time_string : String) : String :=
  "token_" ++ salt ++ msToSecString (parseTimeSafeMs pt time_string)

/-- Source `getTimeToken(salt, time_string)` from `src/crypto.js` (the SetupToken):
`"token_"` followed by the first ten digest characters with cosmetic
separators folded in, followed by a five-digit decimal checksum derived
from the digits of the reversed letter-stripped digest. -/
def getTimeToken (mac : String → String) (pt : String → Option ℤ)
    (salt time_string : String) : String :=
  let h := mac (tokenMsg pt salt time_string)
  "token_" ++
    (String.mk (fmtAux 0 (h.data.take 10)) ++
      padDigits (some (jsNumOr (jsParseInt (String.mk ((reverse (stripLetters h)).data.take 5))) 0)) 5)

/-- Source `getTimeEndedProof(salt, timeStart, timeEnd, enc_data)` from
`src/crypto.js` (the UnlockWindowProof):
`"begintime_" + hmac(begintime_salt|start|end|encdata)`.  The two times
are the millisecond values stored in the `Date` objects (`none` when the
date is invalid, rendering as `NaN`). -/
def getTimeEndedProof (mac : String → String) (salt : String)
    (timeStart timeEnd : Option ℤ) (enc_data : String) : String :=
  "begintime_" ++
    mac ("begintime_" ++ salt ++ "|" ++ numStr timeStart ++ "|" ++ numStr timeEnd ++ "|" ++ enc_data)

/-- Source `getTempTimeToken(time_string, salt, timeCreated)` from
`src/temp-token.js` (the TempBeginProof):
`"temp_" + hmac("temp_" + salt + time_string + timeCreated)`.
`timeCreated` is taken as a string: the handler receives it from the
query string, and number arguments are coerced by JS concatenation. -/
def getTempTimeToken (mac : String → String) (time_string salt timeCreated : String) : String :=
  "temp_" ++ mac ("temp_" ++ salt ++ time_string ++ timeCreated)


/-- Response of `/api/temp/begin` (`tempTokenBeginAPI` in `src/temp-token.js`). -/
structure TempBeginResp where
  from_ : ℤ
  tempproof : String
deriving DecidableEq

/-- Source `tempTokenBeginAPI(salt, time_string, time_token, callback)` from
`src/temp-token.js`: re-derive the SetupToken and compare; on match
capture `createTime = Date.now()` (the `now` parameter) and return the
TempBeginProof. -/
def tempTokenBeginAPI (mac : String → String) (pt : String → Option ℤ) (now : ℤ)
    (salt time_string time_token : String) : Except String TempBeginResp :=
  if getTimeToken mac pt salt time_string ≠ time_token then
    .error ("Cant validate time token: " ++ time_token)
  else
    .ok { from_ := now, tempproof := getTempTimeToken mac time_string salt (toString now) }

/-- Response of `/api/temp/fastcopy` (`getFastTempTimeToken`). -/
structure FastResp where
  mindiff : String
  fastproof : String
deriving DecidableEq

/-- The FastCopyProof expression
`hmac([time_string, salt, minutediff, getISOMin(d)].join("|")).substr(0, 6).toUpperCase()`
which `src/temp-token.js` computes both in `getFastTempTimeToken` (with
`d = now`) and in each trial of `verifyFastTempToken`. -/
def fastProofOf (mac : String → String) (isoMin : ℤ → String) (t : ℤ)
    (time_string salt minutediff : String) : String :=
  String.mk
    (((mac (time_string ++ "|" ++ salt ++ "|" ++ minutediff ++ "|" ++ isoMin t)).data.take 6).map
      Char.toUpper)

/-- JS subtraction lifted to the `NaN` model. -/
def jsSubOpt : Option ℤ → Option ℤ → Option ℤ
  | some a, some b => some (a - b)
  | _, _ => none

/-- Source `getFastTempTimeToken(time_string, salt, createTime)` from
`src/temp-token.js`: the elapsed time is rounded to whole seconds
(`Math.round((now - createTime) / 1000)`), the seconds part
(`nowInSec % 60`) is subtracted and the result divided by 60 (exact,
since the remainder was removed), giving whole minutes, zero-padded to
four digits; the proof is MAC-ed over the joined fields and truncated.
`createTime` is `none` when `parseInt` on the query value returned `NaN`. -/
def getFastTempTimeToken (mac : String → String) (isoMin : ℤ → String) (now : ℤ)
    (createTime : Option ℤ) (time_string salt : String) : FastResp :=
  let nowInSec := createTime.map (fun ct => jsRound (((now - ct : ℤ) : ℚ) / 1000))
  let nowSecPart := nowInSec.map (fun x => jsRem x 60)
  let nowMinPartInSec := jsSubOpt nowInSec nowSecPart
  let nowMinPartInMin := nowMinPartInSec.map (fun x => x / 60)
  let minutePassed := padDigits nowMinPartInMin 4
  { mindiff := minutePassed,
    fastproof := fastProofOf mac isoMin now time_string salt minutePassed }

/-- Source `createFastCopyTempTokenAPI(time_string, salt, createTime, temp_token, callback)`
from `src/temp-token.js`: re-derive the TempBeginProof from the supplied
triple and compare; on match derive the FastCopyProof with
`parseInt(createTime, 10)`. -/
def createFastCopyTempTokenAPI (mac : String → String) (isoMin : ℤ → String) (now : ℤ)
    (time_string salt createTime temp_token : String) : Except String FastResp :=
  if getTempTimeToken mac time_string salt createTime ≠ temp_token then
    .error ("Cant validate temp token: " ++ temp_token)
  else
    .ok (getFastTempTimeToken mac isoMin now (jsParseInt createTime) time_string salt)

/-- Source `const fastCopyTempValidMin = 5` from `src/temp-token.js`. -/
def fastCopyTempValidMin : ℕ := 5

/-- Source `verifyFastTempToken(time_string, salt, minutediff, fastproof)` from
`src/temp-token.js`: a fixed bounded loop of `fastCopyTempValidMin`
iterations; iteration `i` recomputes the expected proof at the trial
clock `now - i` minutes (`d.setMinutes(d.getMinutes() - 1)` runs at the
end of every iteration) and latches `fastTempValid` on a match. -/
def verifyFastTempToken (mac : String → String) (isoMin : ℤ → String) (now : ℤ)
    (time_string salt minutediff fastproof : String) : Bool :=
  (List.range fastCopyTempValidMin).foldl
    (fun (fastTempValid : Bool) (i : ℕ) =>
      if fastProofOf mac isoMin (now - 60000 * (i : ℤ)) time_string salt minutediff = fastproof then
        true
      else fastTempValid)
    false

/-- Response of `/api/temp/unlock` (`tempUnlockBeginAPI`): the window
bounds are `none` when the dates became invalid through `NaN` arithmetic. -/
structure TempUnlockResp where
  from_ : Option ℤ
  to_ : Option ℤ
  proof : String
deriving DecidableEq

/-- Source `tempUnlockBeginAPI(time_string, salt, minutediff, fastproof, duration, enckey, callback)`
from `src/temp-token.js`: validate the FastCopyProof over the trailing
minute buckets; then
`minutesToWait = parseTimeSafeSec(time_string) / 60 - parseInt(minutediff, 10)`,
clamped below by 1; `startTime` is now plus `minutesToWait` minutes,
`endTime` is `startTime` plus `duration` minutes (both stored in a `Date`,
hence truncated to integral milliseconds); the UnlockWindowProof covers
`(salt, startTime, endTime, enckey)`. -/
def tempUnlockBeginAPI (mac : String → String) (isoMin : ℤ → String)
    (pt : String → Option ℤ) (now : ℤ)
    (time_string salt minutediff fastproof : String) (duration : ℤ)
    (enckey : String) : Except String TempUnlockResp :=
  if verifyFastTempToken mac isoMin now time_string salt minutediff fastproof = false then
    .error ("Cant validate fast copy proof " ++ fastproof)
  else
    let minutesToWait0 : Option ℚ :=
      (jsParseInt minutediff).map (fun (md : ℤ) => parseTimeSafeSec pt time_string / 60 - (md : ℚ))
    let minutesToWait := minutesToWait0.map (fun w => if w < 1 then 1 else w)
    let startTime : Option ℤ := minutesToWait.map (fun w => jsTrunc ((now : ℚ) + w * 60000))
    let endTime : Option ℤ := startTime.map (fun s => s + duration * 60000)
    .ok { from_ := startTime, to_ := endTime,
          proof := getTimeEndedProof mac salt startTime endTime enckey }

/-- Source `const DEFAULT_UNLOCK_WINDOW_MIN = 15` from `src/express.js`. -/
def DEFAULT_UNLOCK_WINDOW_MIN : ℤ := 15

/-- Query-string inputs of `/api/unlock/begin` (missing parameters are
modelled as the empty string, which is what the falsy guard tests). -/
structure BeginQuery where
  enckey : String
  token : String
  tokenproof : String
  offsetstartmin : String
  duration : String
  salt : String

/-- Response of `/api/unlock/begin`. -/
structure BeginResp where
  from_ : ℤ
  to_ : ℤ
  proof : String
deriving DecidableEq

/-- The `/api/unlock/begin` handler from `src/express.js`: guard missing
parameters; `offsetstartmin` and `duration` are `parseInt(..) || default`
(default 0 and `DEFAULT_UNLOCK_WINDOW_MIN`); validate the SetupToken;
`waitTimeMin = parseTimeSafeSec(token) / 60`; the window start is now
plus `waitTimeMin + offsetstartmin` minutes and the end is now plus
`waitTimeMin + offsetstartmin + duration` minutes. -/
def unlockBegin (mac : String → String) (pt : String → Option ℤ) (now : ℤ)
    (q : BeginQuery) : Except String BeginResp :=
  if q.enckey = "" ∨ q.token = "" ∨ q.tokenproof = "" ∨ q.offsetstartmin = "" ∨
      q.duration = "" ∨ q.salt = "" then
    .error "Missing params in /unlock/begin"
  else
    let enckey := fromSafeURL q.enckey
    let offset_strat_min := jsNumOr (jsParseInt q.offsetstartmin) 0
    let duration := jsNumOr (jsParseInt q.duration) DEFAULT_UNLOCK_WINDOW_MIN
    if getTimeToken mac pt q.salt q.token ≠ q.tokenproof then
      .error ("Cant validate token: " ++ q.tokenproof)
    else
      let waitTimeMin : ℚ := parseTimeSafeSec pt q.token / 60
      let startTime := jsTrunc ((now : ℚ) + (waitTimeMin + (offset_strat_min : ℚ)) * 60000)
      let endTime :=
        jsTrunc ((now : ℚ) + (waitTimeMin + (offset_strat_min : ℚ) + (duration : ℚ)) * 60000)
      .ok { from_ := startTime, to_ := endTime,
            proof := getTimeEndedProof mac q.salt (some startTime) (some endTime) enckey }

/-- Query-string inputs of `/api/temp/unlock`. -/
structure TempUnlockQuery where
  token : String
  salt : String
  mindiff : String
  fastproof : String
  enckey : String
  duration : String

/-- The `/api/temp/unlock` handler from `src/express.js`: guard the five
required parameters (`duration` is optional), default the duration with
`parseInt(duration, 10) || DEFAULT_UNLOCK_WINDOW_MIN`, and delegate to
`tempUnlockBeginAPI`. -/
def tempUnlockExpress (mac : String → String) (isoMin : ℤ → String)
    (pt : String → Option ℤ) (now : ℤ) (q : TempUnlockQuery) :
    Except String TempUnlockResp :=
  if q.token = "" ∨ q.salt = "" ∨ q.mindiff = "" ∨ q.fastproof = "" ∨ q.enckey = "" then
    .error "Missing params in /temp/unlock"
  else
    tempUnlockBeginAPI mac isoMin pt now q.token q.salt q.mindiff q.fastproof
      (jsNumOr (jsParseInt q.duration) DEFAULT_UNLOCK_WINDOW_MIN) (fromSafeURL q.enckey)

/-- Shape of the JSON payload inside a SealedSecret
(`JSON.parse(decrypt(enckey))`): the handler reads the optional fields
`salt`, `s`, `pass`, `p`; `none` models an absent field (`undefined`). -/
structure KeyData where
  salt : Option String
  s : Option String
  pass : Option String
  p : Option String

/-- The three entries of the `unlockSucessCB` callback table in
`src/express.js`. -/
inductive CBTag
  | simple
  | shaStep
  | otpStep
deriving DecidableEq

/-- The `unlockSucessCB` dispatch table: a JS object lookup returning
`undefined` (`none`) for any key other than the three entries. -/
def lookupCB (mode : String) : Option CBTag :=
  if mode = "simple" then some .simple
  else if mode = "sha-step" then some .shaStep
  else if mode = "otp-step" then some .otpStep
  else none

/-- Query-string inputs of `/api/unlock/finish` (absent parameters are the
empty string, which the falsy guard and the `|| "simple"` default test). -/
structure FinishQuery where
  enckey : String
  from_ : String
  to_ : String
  proof : String
  salt : String
  mode : String

/-- Outcome of the `/api/unlock/finish` handler.  The structured error
responses keep the data interpolated into their message (`errWindow`
carries `timeStart - nowTime`, the value passed to `prettyTime`);
`dispatched` is the invocation of the mode callback with the recovered
password; `thrown` is the uncaught `TypeError` raised by calling
`unlockSucessCB[mode]` when the lookup returned `undefined`. -/
inductive FinishResult
  | errMissing
  | errProof (proof : String)
  | errWindow (leftMs : Option ℤ)
  | errSaltMismatch
  | dispatched (tag : CBTag) (pass : String)
  | thrown (mode : String)
deriving DecidableEq

/-- JS `<` on the `NaN` model: any comparison against `NaN` is false. -/
def jsLtOpt : Option ℤ → Option ℤ → Bool
  | some a, some b => decide (a < b)
  | _, _ => false

/-- The `/api/unlock/finish` handler from `src/express.js`: guard missing
parameters; `mode = query.mode || "simple"`; parse `from`/`to` into
dates; recompute the UnlockWindowProof and compare; require
`timeStart < now && now < timeEnd` (strict on both ends); decrypt the
sealed secret (capability `unseal`), compare `keyData.salt || keyData.s`
with the request salt; recover `keyData.pass || keyData.p || "error-no-pass-key"`
and invoke the mode callback from the `unlockSucessCB` table. -/
def unlockFinish (mac : String → String) (unsealBox : String → KeyData) (now : ℤ)
    (q : FinishQuery) : FinishResult :=
  if q.enckey = "" ∨ q.from_ = "" ∨ q.to_ = "" ∨ q.proof = "" ∨ q.salt = "" then
    .errMissing
  else
    let mode := jsStrOrDefault q.mode "simple"
    let enckey := fromSafeURL q.enckey
    let timeStart := jsParseInt (jsStrOrDefault q.from_ "0")
    let timeEnd := jsParseInt (jsStrOrDefault q.to_ "0")
    let calcTimeProof := getTimeEndedProof mac q.salt timeStart timeEnd enckey
    if calcTimeProof ≠ q.proof then
      .errProof q.proof
    else if jsLtOpt timeStart (some now) && jsLtOpt (some now) timeEnd then
      let keyData := unsealBox enckey
      if jsStrOr keyData.salt keyData.s = some q.salt then
        let password := (jsStrOr (jsStrOr keyData.pass keyData.p) (some "error-no-pass-key")).getD ""
        match lookupCB mode with
        | some tag => .dispatched tag password
        | none => .thrown mode
      else
        .errSaltMismatch
    else
      .errWindow (jsSubOpt timeStart (some now))

/-- Identity MAC used to instantiate the `mac` capability in concrete
witnesses (the protocol treats the MAC as an arbitrary deterministic
string function). -/
def macId : String → String := fun s => s

/-- Concrete duration parser capability: every spec parses to 900000 ms
(15 minutes), the value `parse-duration` returns for `"15m"`. -/
def ptFifteen : String → Option ℤ := fun _ => some 900000

/-- Concrete ISO minute-bucket capability for witnesses. -/
def isoT : ℤ → String := fun _ => "2021-10-11T19:03"

/-- Concrete sealed-box capability: every blob decrypts to
`\x7b p: "pw", s: "s1" \x7d` (the shape `/api/enc` seals). -/
def unsealS1 : String → KeyData := fun _ =>
  { salt := none, s := some "s1", pass := none, p := some "pw" }

/-- Concrete sealed-box capability whose payload is bound to salt `"sA"`. -/
def unsealSA : String → KeyData := fun _ =>
  { salt := none, s := some "sA", pass := none, p := some "pw" }

/-! ### Helper lemmas -/

/-- A latch-style fold (`if match then valid = true` inside a loop, never
reset) is the disjunction of the matches. -/
theorem foldl_latch (p : ℕ → Prop) [DecidablePred p] :
    ∀ (l : List ℕ) (b : Bool),
      l.foldl (fun v i => if p i then true else v) b = (b || l.any (fun i => decide (p i))) := by
  intro l
  induction l with
  | nil => intro b; simp
  | cons a t ih =>
    intro b
    rw [List.foldl_cons, ih]
    by_cases hp : p a
    · simp [hp]
    · simp [hp]

/-- The normalized delay is at least 60 seconds. -/
theorem sixty_le_parseTimeSafeSec (pt : String → Option ℤ) (e : String) :
    (60 : ℚ) ≤ parseTimeSafeSec pt e := by
  unfold parseTimeSafeSec parseTimeSafeMs
  rw [le_div_iff₀ (by norm_num : (0 : ℚ) < 1000)]
  have h : (60000 : ℤ) ≤ max (jsNumOr (pt e) 60000) 60000 := le_max_right _ _
  calc (60 : ℚ) * 1000 = ((60000 : ℤ) : ℚ) := by norm_num
  _ ≤ _ := by exact_mod_cast h

/-- The wait implied by a normalized delay is at least one minute. -/
theorem one_le_waitTimeMin (pt : String → Option ℤ) (e : String) :
    (1 : ℚ) ≤ parseTimeSafeSec pt e / 60 := by
  rw [le_div_iff₀ (by norm_num : (0 : ℚ) < 60), one_mul]
  exact sixty_le_parseTimeSafeSec pt e

/-- Date truncation is the identity on integral time values. -/
theorem jsTrunc_intCast (n : ℤ) : jsTrunc ((n : ℚ)) = n := by
  unfold jsTrunc
  split <;> simp

/-- Truncation commutes with integer shifts of nonnegative time values. -/
theorem jsTrunc_add_int (x : ℚ) (d : ℤ) (hx : 0 ≤ x) (hxd : 0 ≤ x + (d : ℚ)) :
    jsTrunc (x + (d : ℚ)) = jsTrunc x + d := by
  unfold jsTrunc
  rw [if_pos hxd, if_pos hx, Int.floor_add_int]

/-- The `if (w < 1) w = 1` clamp is a max with 1. -/
theorem ite_lt_one_eq_max (w : ℚ) : (if w < 1 then (1 : ℚ) else w) = max 1 w := by
  rcases lt_or_le w 1 with h | h
  · rw [if_pos h, max_eq_left h.le]
  · rw [if_neg (not_lt.mpr h), max_eq_right h]

/-- Removing the seconds remainder and dividing by 60 is flooring to whole
minutes, for a nonnegative second count. -/
theorem sub_jsRem_div_sixty (x : ℤ) (hx : 0 ≤ x) :
    (x - jsRem x 60) / 60 = ⌊(x : ℚ) / 60⌋ := by
  unfold jsRem
  rw [Int.tdiv_eq_ediv hx (by norm_num)]
  have h : x - (x - 60 * (x / 60)) = 60 * (x / 60) := by ring
  rw [h, Int.mul_ediv_cancel_left _ (by norm_num : (60 : ℤ) ≠ 0)]
  rw [show ((60 : ℚ)) = ((60 : ℕ) : ℚ) by norm_num, Rat.floor_intCast_div_natCast]
  norm_cast

/-- Rounding a nonnegative value stays nonnegative. -/
theorem jsRound_nonneg (q : ℚ) (h : 0 ≤ q) : 0 ≤ jsRound q := by
  unfold jsRound
  rw [Int.le_floor]
  push_cast
  linarith

/-- Prepending a common string preserves distinctness. -/
theorem prepend_ne (p a b : String) (h : a ≠ b) : p ++ a ≠ p ++ b := by
  intro hEq
  apply h
  have hd := congrArg String.data hEq
  rw [String.data_append, String.data_append] at hd
  have h2 := List.append_cancel_left hd
  cases a with
  | mk da =>
    cases b with
    | mk db => exact congrArg String.mk h2

/-- The separator fold preserves length equality. -/
theorem fmtAux_length_congr (l : List Char) :
    ∀ (m : List Char) (i : ℕ), l.length = m.length →
      (fmtAux i l).length = (fmtAux i m).length := by
  induction l with
  | nil =>
    intro m i h
    cases m with
    | nil => rfl
    | cons c t => simp at h
  | cons c t ih =>
    intro m i h
    cases m with
    | nil => simp at h
    | cons c2 t2 =>
      by_cases h5 : i % 5 = 4 <;>
        simp [fmtAux, h5, List.length_append, ih t2 (i + 1) (by simpa using h)]

/-- The separator fold is injective on equal-length inputs. -/
theorem fmtAux_inj (l : List Char) :
    ∀ (m : List Char) (i : ℕ), l.length = m.length → fmtAux i l = fmtAux i m → l = m := by
  induction l with
  | nil =>
    intro m i h _
    cases m with
    | nil => rfl
    | cons c t => simp at h
  | cons c t ih =>
    intro m i h hf
    cases m with
    | nil => simp at h
    | cons c2 t2 =>
      by_cases h5 : i % 5 = 4
      · simp only [fmtAux, h5, List.cons_append, List.nil_append, if_true,
          List.cons.injEq, and_true, true_and] at hf
        obtain ⟨hc, hrest⟩ := hf
        rw [hc, ih t2 (i + 1) (by simpa using h) hrest]
      · simp only [fmtAux, h5, List.cons_append, List.nil_append, if_false,
          List.cons.injEq] at hf
        obtain ⟨hc, hrest⟩ := hf
        rw [hc, ih t2 (i + 1) (by simpa using h) hrest]

/-! ### Claim theorems -/

/-- C3: FastCopyProof verification (`verifyFastTempToken`, used by
`tempUnlockBegin`) recomputes the expected 6-character proof for exactly
5 trial ISO-minute buckets, stepping the trial clock back one minute per
iteration of the fixed bounded loop, and accepts if and only if at least
the recomputed proof of at least one trial bucket equals the supplied proof. -/
theorem C3_fastcopy_verification (mac : String → String) (isoMin : ℤ → String) (now : ℤ)
    (time_string salt minutediff fastproof : String) :
    verifyFastTempToken mac isoMin now time_string salt minutediff fastproof = true ↔
      ∃ i : ℕ, i < 5 ∧
        fastProofOf mac isoMin (now - 60000 * (i : ℤ)) time_string salt minutediff = fastproof := by
  unfold verifyFastTempToken fastCopyTempValidMin
  rw [foldl_latch
    (fun i => fastProofOf mac isoMin (now - 60000 * (i : ℤ)) time_string salt minutediff
      = fastproof)]
  simp [List.any_eq_true, List.mem_range]

/-- C7: for every DelaySpec string the normalized delay is at least 60
seconds; inputs parsing below 60 seconds and unparsable inputs both
normalize to exactly 60. -/
theorem C7_normalize_floor (pt : String → Option ℤ) (e : String) :
    (60 : ℚ) ≤ parseTimeSafeSec pt e ∧
      (∀ v : ℤ, pt e = some v → v < 60000 → parseTimeSafeSec pt e = 60) ∧
      (pt e = none → parseTimeSafeSec pt e = 60) := by
  refine ⟨sixty_le_parseTimeSafeSec pt e, ?_, ?_⟩
  · intro v hv hlt
    unfold parseTimeSafeSec parseTimeSafeMs jsNumOr
    rw [hv]
    have hmax : max (if v = 0 then (60000 : ℤ) else v) 60000 = 60000 := by
      by_cases h0 : v = 0
      · simp [h0]
      · rw [if_neg h0]
        exact max_eq_right hlt.le
    rw [hmax]
    norm_num
  · intro hv
    unfold parseTimeSafeSec parseTimeSafeMs jsNumOr
    rw [hv]
    norm_num

/-- C7 witness: the 500 ms parse result is clamped to 60 seconds. -/
theorem C7_normalize_floor_witness :
    parseTimeSafeSec (fun _ => some 500) "500ms" = 60 :=
  (C7_normalize_floor (fun _ => some 500) "500ms").2.1 500 rfl (by decide)

/-- C5 (amended): for a FastCopy derivation with `createTime <= now`, the
returned `mindiff` is the elapsed time first rounded to whole seconds
(`Math.round`) and then floored to whole minutes — not
`floor((now - createTime) / 60000)` — zero-padded to 4 digits, and the
returned proof is the MAC over the joined
`(DelaySpec, salt, minutesElapsed, ISO-minute bucket)` fields truncated
to 6 characters and uppercased. -/
theorem C5_fastcopy_minutes (mac : String → String) (isoMin : ℤ → String) (now ct : ℤ)
    (time_string salt : String) (h : ct ≤ now) :
    (getFastTempTimeToken mac isoMin now (some ct) time_string salt).mindiff =
      padDigits (some ⌊(jsRound (((now - ct : ℤ) : ℚ) / 1000) : ℚ) / 60⌋) 4 ∧
    (getFastTempTimeToken mac isoMin now (some ct) time_string salt).fastproof =
      fastProofOf mac isoMin now time_string salt
        ((getFastTempTimeToken mac isoMin now (some ct) time_string salt).mindiff) := by
  have hd : (0 : ℚ) ≤ ((now - ct : ℤ) : ℚ) / 1000 := by
    apply div_nonneg _ (by norm_num)
    exact_mod_cast sub_nonneg.mpr h
  have hx : 0 ≤ jsRound (((now - ct : ℤ) : ℚ) / 1000) := jsRound_nonneg _ hd
  constructor
  · show padDigits (((jsSubOpt ((some ct).map (fun c => jsRound (((now - c : ℤ) : ℚ) / 1000)))
        (((some ct).map (fun c => jsRound (((now - c : ℤ) : ℚ) / 1000))).map
          (fun x => jsRem x 60))).map (fun x => x / 60))) 4 = _
    simp only [Option.map_some', jsSubOpt]
    rw [sub_jsRem_div_sixty _ hx]
  · rfl

/-- C5 counterexample: at `now - createTime = 59500` milliseconds the code
returns `"0001"` (59.5 seconds rounds up to the 60-second minute) while
the claimed formula `floor((now - createTime) / 60000)` gives `"0000"`. -/
theorem C5_counterexample :
    (getFastTempTimeToken macId isoT 59500 (some 0) "15m" "sA").mindiff = "0001" ∧
    padDigits (some ((59500 - 0 : ℤ) / 60000)) 4 = "0000" ∧
    ("0001" : String) ≠ "0000" := by
  refine ⟨?_, by decide, by decide⟩
  have hx : jsRound (((59500 - 0 : ℤ) : ℚ) / 1000) = 60 := by
    unfold jsRound
    rw [Int.floor_eq_iff]
    constructor <;> norm_num
  simp only [getFastTempTimeToken, Option.map_some', jsSubOpt, hx]
  decide

/-- C5 witness: the amended statement evaluated at the counterexample
instant. -/
theorem C5_fastcopy_minutes_witness :
    (getFastTempTimeToken macId isoT 59500 (some 0) "15m" "sA").mindiff =
      padDigits (some ⌊(jsRound (((59500 - 0 : ℤ) : ℚ) / 1000) : ℚ) / 60⌋) 4 :=
  (C5_fastcopy_minutes macId isoT 59500 0 "15m" "sA" (by decide)).1

/-- C4: whenever the FastCopyProof validates (and `minutediff` parses),
`tempUnlockBegin` returns
`windowStart = now + max(1, normalize(DelaySpec)/60 - minutesElapsed)` minutes,
`windowEnd = windowStart + duration` minutes, and the UnlockWindowProof
MAC over `(salt, windowStart, windowEnd, SealedSecret)`. -/
theorem C4_temp_unlock_window (mac : String → String) (isoMin : ℤ → String)
    (pt : String → Option ℤ) (now : ℤ)
    (time_string salt minutediff fastproof enckey : String) (duration md : ℤ)
    (r : TempUnlockResp)
    (hv : verifyFastTempToken mac isoMin now time_string salt minutediff fastproof = true)
    (hmd : jsParseInt minutediff = some md)
    (hr : tempUnlockBeginAPI mac isoMin pt now time_string salt minutediff fastproof duration
        enckey = .ok r) :
    r.from_ = some (jsTrunc ((now : ℚ) +
        (max 1 (parseTimeSafeSec pt time_string / 60 - (md : ℚ))) * 60000)) ∧
    r.to_ = r.from_.map (fun s => s + duration * 60000) ∧
    r.proof = "begintime_" ++ mac ("begintime_" ++ salt ++ "|" ++ numStr r.from_ ++ "|" ++
        numStr r.to_ ++ "|" ++ enckey) := by
  unfold tempUnlockBeginAPI at hr
  rw [if_neg (by simp [hv])] at hr
  simp only [hmd, Option.map_some'] at hr
  rw [Except.ok.injEq] at hr
  cases hr
  refine ⟨?_, rfl, rfl⟩
  simp only [ite_lt_one_eq_max]

/-- C4 witness: a concrete validated call (15-minute delay, 1 minute
elapsed, 5-minute duration, now = 0) whose window starts 14 minutes out. -/
theorem C4_temp_unlock_window_witness :
    (TempUnlockResp.mk (some 840000) (some 1140000)
        (getTimeEndedProof macId "sA" (some 840000) (some 1140000) "E")).from_ =
      some (jsTrunc (((0 : ℤ) : ℚ) +
        (max 1 (parseTimeSafeSec ptFifteen "15m" / 60 - ((1 : ℤ) : ℚ))) * 60000)) := by
  have h14 : parseTimeSafeSec ptFifteen "15m" / 60 - ((1 : ℤ) : ℚ) = 14 := by
    unfold parseTimeSafeSec parseTimeSafeMs ptFifteen jsNumOr
    norm_num
  have hr : tempUnlockBeginAPI macId isoT ptFifteen 0 "15m" "sA" "0001"
      (fastProofOf macId isoT 0 "15m" "sA" "0001") 5 "E" =
      .ok (TempUnlockResp.mk (some 840000) (some 1140000)
        (getTimeEndedProof macId "sA" (some 840000) (some 1140000) "E")) := by
    unfold tempUnlockBeginAPI
    rw [if_neg (by decide)]
    simp only [show jsParseInt "0001" = some (1 : ℤ) by decide, Option.map_some']
    rw [h14, if_neg (by norm_num : ¬(14 : ℚ) < 1)]
    rw [show (((0 : ℤ) : ℚ) + (14 : ℚ) * 60000) = ((840000 : ℤ) : ℚ) by norm_num]
    rw [jsTrunc_intCast]
    norm_num [getTimeEndedProof, numStr]
  exact (C4_temp_unlock_window macId isoT ptFifteen 0 "15m" "sA" "0001"
    (fastProofOf macId isoT 0 "15m" "sA" "0001") "E" 5 1 _ (by decide) (by decide) hr).1

/-- C2: an unlock-finish request whose window proof recomputes and whose
time lies inside the window is rejected with the salt-mismatch error —
and the secret is not released — whenever the salt embedded in the
decrypted sealed secret differs from the request salt. -/
theorem C2_salt_binding (mac : String → String) (unsealBox : String → KeyData) (now : ℤ)
    (q : FinishQuery) (A : String)
    (h1 : q.enckey ≠ "") (h2 : q.from_ ≠ "") (h3 : q.to_ ≠ "") (h4 : q.proof ≠ "")
    (h5 : q.salt ≠ "")
    (hp : q.proof = getTimeEndedProof mac q.salt (jsParseInt (jsStrOrDefault q.from_ "0"))
        (jsParseInt (jsStrOrDefault q.to_ "0")) (fromSafeURL q.enckey))
    (hw1 : jsLtOpt (jsParseInt (jsStrOrDefault q.from_ "0")) (some now) = true)
    (hw2 : jsLtOpt (some now) (jsParseInt (jsStrOrDefault q.to_ "0")) = true)
    (hA : jsStrOr (unsealBox (fromSafeURL q.enckey)).salt
        (unsealBox (fromSafeURL q.enckey)).s = some A)
    (hAB : A ≠ q.salt) :
    unlockFinish mac unsealBox now q = .errSaltMismatch := by
  have hg : ¬(q.enckey = "" ∨ q.from_ = "" ∨ q.to_ = "" ∨ q.proof = "" ∨ q.salt = "") := by
    simp [h1, h2, h3, h4, h5]
  simp only [unlockFinish]
  rw [if_neg hg, if_neg (by simp [hp]), if_pos (by simp [hw1, hw2]), if_neg (by simp [hA, hAB])]

/-- C2 witness: a secret sealed under salt `sA` presented with a valid
window proof computed under salt `sB` is rejected. -/
theorem C2_salt_binding_witness :
    unlockFinish macId unsealSA 1500
      { enckey := "E", from_ := "1000", to_ := "2000",
        proof := getTimeEndedProof macId "sB" (some 1000) (some 2000) "E",
        salt := "sB", mode := "" } = .errSaltMismatch :=
  C2_salt_binding macId unsealSA 1500 _ "sA" (by decide) (by decide) (by decide) (by decide)
    (by decide) (by decide) (by decide) (by decide) (by decide) (by decide)

/-- C1 (amended): for an unlock-finish request whose window proof
recomputes correctly, the operation fails with the window error if and
only if the current time lies outside the open interval
`(windowStart, windowEnd)`: the comparisons are strict, so the request
fails at `now = windowStart - 1` and also at `now = windowStart` itself,
first succeeds at `now = windowStart + 1`, and fails again at
`now = windowEnd` and `now = windowEnd + 1`. -/
theorem C1_window_strict (mac : String → String) (unsealBox : String → KeyData)
    (now tsv tev : ℤ) (q : FinishQuery)
    (h1 : q.enckey ≠ "") (h2 : q.from_ ≠ "") (h3 : q.to_ ≠ "") (h4 : q.proof ≠ "")
    (h5 : q.salt ≠ "")
    (hts : jsParseInt (jsStrOrDefault q.from_ "0") = some tsv)
    (hte : jsParseInt (jsStrOrDefault q.to_ "0") = some tev)
    (hp : q.proof = getTimeEndedProof mac q.salt (some tsv) (some tev) (fromSafeURL q.enckey)) :
    (∃ l, unlockFinish mac unsealBox now q = .errWindow l) ↔ ¬ (tsv < now ∧ now < tev) := by
  have hg : ¬(q.enckey = "" ∨ q.from_ = "" ∨ q.to_ = "" ∨ q.proof = "" ∨ q.salt = "") := by
    simp [h1, h2, h3, h4, h5]
  simp only [unlockFinish]
  rw [if_neg hg, hts, hte, if_neg (by simp [hp])]
  simp only [jsLtOpt, jsSubOpt]
  by_cases hc : tsv < now ∧ now < tev
  · rw [if_pos (by simp [hc.1, hc.2])]
    refine iff_of_false ?_ (by simpa using hc)
    rintro ⟨l, hl⟩
    by_cases hs : jsStrOr (unsealBox (fromSafeURL q.enckey)).salt
        (unsealBox (fromSafeURL q.enckey)).s = some q.salt
    · rw [if_pos hs] at hl
      cases hm : lookupCB (jsStrOrDefault q.mode "simple") <;> rw [hm] at hl <;> cases hl
    · rw [if_neg hs] at hl
      cases hl
  · rw [if_neg (by simpa [Bool.and_eq_true, decide_eq_true_eq] using hc)]
    exact iff_of_true ⟨_, rfl⟩ hc

/-- C1 counterexample: at `now = windowStart` (window `[1000, 2000]`, a
correctly recomputing proof) the handler reports the window error, where
the claim requires success at the `windowStart` boundary instant. -/
theorem C1_counterexample :
    unlockFinish macId unsealS1 1000
      { enckey := "E", from_ := "1000", to_ := "2000",
        proof := getTimeEndedProof macId "s1" (some 1000) (some 2000) "E",
        salt := "s1", mode := "" } = .errWindow (some 0) := by decide

/-- C1 witness: the amended boundary behaviour at `now = windowEnd + 1`. -/
theorem C1_window_strict_witness :
    ∃ l, unlockFinish macId unsealS1 2001
      { enckey := "E", from_ := "1000", to_ := "2000",
        proof := getTimeEndedProof macId "s1" (some 1000) (some 2000) "E",
        salt := "s1", mode := "" } = .errWindow l :=
  (C1_window_strict macId unsealS1 2001 1000 2000 _ (by decide) (by decide) (by decide)
    (by decide) (by decide) (by decide) (by decide) (by decide)).mpr (by decide)

/-- C9 (amended): for an unlock-finish request that passes proof, window
and salt validation, the handler throws (undefined dispatch-table entry)
exactly when the effective mode — the supplied mode string, with the
empty or missing string defaulting to `"simple"` — is outside
`simple / sha-step / otp-step`; a callback is dispatched only for the
three known table keys. -/
theorem C9_mode_dispatch (mac : String → String) (unsealBox : String → KeyData)
    (now tsv tev : ℤ) (q : FinishQuery)
    (h1 : q.enckey ≠ "") (h2 : q.from_ ≠ "") (h3 : q.to_ ≠ "") (h4 : q.proof ≠ "")
    (h5 : q.salt ≠ "")
    (hts : jsParseInt (jsStrOrDefault q.from_ "0") = some tsv)
    (hte : jsParseInt (jsStrOrDefault q.to_ "0") = some tev)
    (hp : q.proof = getTimeEndedProof mac q.salt (some tsv) (some tev) (fromSafeURL q.enckey))
    (hw : tsv < now ∧ now < tev)
    (hs : jsStrOr (unsealBox (fromSafeURL q.enckey)).salt
        (unsealBox (fromSafeURL q.enckey)).s = some q.salt) :
    ((unlockFinish mac unsealBox now q = .thrown (jsStrOrDefault q.mode "simple")) ↔
      (jsStrOrDefault q.mode "simple" ≠ "simple" ∧
        jsStrOrDefault q.mode "simple" ≠ "sha-step" ∧
        jsStrOrDefault q.mode "simple" ≠ "otp-step")) ∧
    (∀ tag pw, unlockFinish mac unsealBox now q = .dispatched tag pw →
      (jsStrOrDefault q.mode "simple" = "simple" ∨
        jsStrOrDefault q.mode "simple" = "sha-step" ∨
        jsStrOrDefault q.mode "simple" = "otp-step")) := by
  have hg : ¬(q.enckey = "" ∨ q.from_ = "" ∨ q.to_ = "" ∨ q.proof = "" ∨ q.salt = "") := by
    simp [h1, h2, h3, h4, h5]
  have hred : unlockFinish mac unsealBox now q =
      match lookupCB (jsStrOrDefault q.mode "simple") with
      | some tag => .dispatched tag
          ((jsStrOr (jsStrOr (unsealBox (fromSafeURL q.enckey)).pass
            (unsealBox (fromSafeURL q.enckey)).p) (some "error-no-pass-key")).getD "")
      | none => .thrown (jsStrOrDefault q.mode "simple") := by
    simp only [unlockFinish]
    rw [if_neg hg, hts, hte, if_neg (by simp [hp])]
    rw [if_pos (by simp [jsLtOpt, hw.1, hw.2]), if_pos hs]
  rw [hred]
  by_cases m1 : jsStrOrDefault q.mode "simple" = "simple"
  · simp [lookupCB, m1]
  · by_cases m2 : jsStrOrDefault q.mode "simple" = "sha-step"
    · simp [lookupCB, m1, m2]
    · by_cases m3 : jsStrOrDefault q.mode "simple" = "otp-step"
      · simp [lookupCB, m1, m2, m3]
      · simp [lookupCB, m1, m2, m3]

/-- C9 counterexample: a request carrying the mode string `""` — outside
the set of known modes — does not throw: the `|| "simple"` default maps
it to the `simple` callback, which reaches a response. -/
theorem C9_counterexample :
    unlockFinish macId unsealS1 1500
      { enckey := "E", from_ := "1000", to_ := "2000",
        proof := getTimeEndedProof macId "s1" (some 1000) (some 2000) "E",
        salt := "s1", mode := "" } = .dispatched .simple "pw" ∧
    ¬(("" : String) = "simple" ∨ ("" : String) = "sha-step" ∨ ("" : String) = "otp-step") := by
  constructor <;> decide

/-- C9 witness: a non-empty unknown mode string makes the handler throw. -/
theorem C9_mode_dispatch_witness :
    unlockFinish macId unsealS1 1500
      { enckey := "E", from_ := "1000", to_ := "2000",
        proof := getTimeEndedProof macId "s1" (some 1000) (some 2000) "E",
        salt := "s1", mode := "weird-mode" } = .thrown "weird-mode" :=
  ((C9_mode_dispatch macId unsealS1 1500 1000 2000 _ (by decide) (by decide) (by decide)
      (by decide) (by decide) (by decide) (by decide) (by decide) (by decide)
      (by decide)).1.mpr (by decide)).trans (by decide)

/-- C6: the TempBeginProof produced by `tempBegin` is accepted by
`tempFastCopy` when the same `(delaySpec, salt, createTime)` triple is
supplied; it is rejected whenever the proof itself is changed, and — the
MAC digests of the changed and original derivation messages being
distinct, as a one-byte change of salt, delay spec or createTime makes
the messages distinct — whenever any component of the triple is changed. -/
theorem C6_roundtrip (mac : String → String) (pt : String → Option ℤ) (isoMin : ℤ → String)
    (t0 now2 : ℤ) (salt time_string time_token : String) (r : TempBeginResp)
    (h : tempTokenBeginAPI mac pt t0 salt time_string time_token = .ok r) :
    (createFastCopyTempTokenAPI mac isoMin now2 time_string salt (toString r.from_) r.tempproof
      = .ok (getFastTempTimeToken mac isoMin now2 (jsParseInt (toString r.from_))
          time_string salt)) ∧
    (∀ p2, p2 ≠ r.tempproof →
      ∃ m, createFastCopyTempTokenAPI mac isoMin now2 time_string salt (toString r.from_) p2
        = .error m) ∧
    (∀ salt2, mac ("temp_" ++ salt2 ++ time_string ++ toString r.from_) ≠
        mac ("temp_" ++ salt ++ time_string ++ toString r.from_) →
      ∃ m, createFastCopyTempTokenAPI mac isoMin now2 time_string salt2 (toString r.from_)
        r.tempproof = .error m) ∧
    (∀ ts2, mac ("temp_" ++ salt ++ ts2 ++ toString r.from_) ≠
        mac ("temp_" ++ salt ++ time_string ++ toString r.from_) →
      ∃ m, createFastCopyTempTokenAPI mac isoMin now2 ts2 salt (toString r.from_)
        r.tempproof = .error m) ∧
    (∀ ct2, mac ("temp_" ++ salt ++ time_string ++ ct2) ≠
        mac ("temp_" ++ salt ++ time_string ++ toString r.from_) →
      ∃ m, createFastCopyTempTokenAPI mac isoMin now2 time_string salt ct2
        r.tempproof = .error m) := by
  unfold tempTokenBeginAPI at h
  split at h
  · exact absurd h (by simp)
  · rw [Except.ok.injEq] at h
    subst h
    dsimp only
    refine ⟨?_, ?_, ?_, ?_, ?_⟩
    · unfold createFastCopyTempTokenAPI
      rw [if_neg (by simp)]
    · intro p2 hne
      refine ⟨"Cant validate temp token: " ++ p2, ?_⟩
      unfold createFastCopyTempTokenAPI
      rw [if_pos (Ne.symm hne)]
    · intro salt2 hmac
      refine ⟨"Cant validate temp token: " ++
        getTempTimeToken mac time_string salt (toString t0), ?_⟩
      unfold createFastCopyTempTokenAPI getTempTimeToken
      rw [if_pos (prepend_ne "temp_" _ _ hmac)]
    · intro ts2 hmac
      refine ⟨"Cant validate temp token: " ++
        getTempTimeToken mac time_string salt (toString t0), ?_⟩
      unfold createFastCopyTempTokenAPI getTempTimeToken
      rw [if_pos (prepend_ne "temp_" _ _ hmac)]
    · intro ct2 hmac
      refine ⟨"Cant validate temp token: " ++
        getTempTimeToken mac time_string salt (toString t0), ?_⟩
      unfold createFastCopyTempTokenAPI getTempTimeToken
      rw [if_pos (prepend_ne "temp_" _ _ hmac)]

/-- C6 witness: the genuine triple round-trips; a tampered proof is
rejected. -/
theorem C6_roundtrip_witness :
    (createFastCopyTempTokenAPI macId isoT 160000 "15m" "sA" (toString (100 : ℤ))
        (getTempTimeToken macId "15m" "sA" (toString (100 : ℤ)))
      = .ok (getFastTempTimeToken macId isoT 160000 (jsParseInt (toString (100 : ℤ)))
          "15m" "sA")) ∧
    (∃ m, createFastCopyTempTokenAPI macId isoT 160000 "15m" "sA" (toString (100 : ℤ))
        "tampered" = .error m) := by
  have h : tempTokenBeginAPI macId ptFifteen 100 "sA" "15m"
      (getTimeToken macId ptFifteen "sA" "15m")
      = .ok ⟨100, getTempTimeToken macId "15m" "sA" (toString (100 : ℤ))⟩ := by
    unfold tempTokenBeginAPI
    rw [if_neg (by simp)]
  exact ⟨(C6_roundtrip macId ptFifteen isoT 100 160000 "sA" "15m" _ _ h).1,
    (C6_roundtrip macId ptFifteen isoT 100 160000 "sA" "15m" _ _ h).2.1 "tampered" (by decide)⟩

/-- C8: SetupToken derivation is deterministic — two evaluations of
`getTimeToken` on the same `(salt, delaySpec)` pair yield the identical
token string — and two pairs whose MAC digests differ within the first
ten characters (the idealisation of distinct pairs under the MAC
contract) yield different tokens. -/
theorem C8_setup_token (mac : String → String) (pt : String → Option ℤ)
    (salt time_string salt2 ts2 : String)
    (hlen : (mac (tokenMsg pt salt time_string)).length = (mac (tokenMsg pt salt2 ts2)).length)
    (hne : (mac (tokenMsg pt salt time_string)).data.take 10 ≠
        (mac (tokenMsg pt salt2 ts2)).data.take 10) :
    getTimeToken mac pt salt time_string = getTimeToken mac pt salt time_string ∧
    getTimeToken mac pt salt time_string ≠ getTimeToken mac pt salt2 ts2 := by
  refine ⟨rfl, ?_⟩
  intro hEq
  apply hne
  unfold getTimeToken at hEq
  have hd := congrArg String.data hEq
  rw [String.data_append, String.data_append, String.data_append, String.data_append] at hd
  have hd2 := List.append_cancel_left hd
  have hlen10 : ((mac (tokenMsg pt salt time_string)).data.take 10).length =
      ((mac (tokenMsg pt salt2 ts2)).data.take 10).length := by
    have hdl : (mac (tokenMsg pt salt time_string)).data.length =
        (mac (tokenMsg pt salt2 ts2)).data.length := hlen
    rw [List.length_take, List.length_take, hdl]
  have hfl := fmtAux_length_congr _ _ 0 hlen10
  obtain ⟨hf, -⟩ := List.append_inj hd2 hfl
  exact fmtAux_inj _ _ 0 hlen10 hf

/-- C8 witness: determinism and distinctness at two concrete salts. -/
theorem C8_setup_token_witness :
    getTimeToken macId ptFifteen "AAAAAAAAAA" "15m"
      = getTimeToken macId ptFifteen "AAAAAAAAAA" "15m" ∧
    getTimeToken macId ptFifteen "AAAAAAAAAA" "15m"
      ≠ getTimeToken macId ptFifteen "BBBBBBBBBB" "15m" :=
  C8_setup_token macId ptFifteen "AAAAAAAAAA" "15m" "BBBBBBBBBB" "15m" (by decide) (by decide)

/-- C10 (amended): in `unlockBegin` and in the `tempUnlock` handler, a
supplied duration that parses to 0 or is non-numeric is silently replaced
by the 15-minute default, and every positive parsed duration yields
`windowEnd - windowStart = duration >= 1` minute — but a negative parsed
duration is kept as-is, producing a window that ends before it starts, so
`windowEnd - windowStart >= 1` minute does not hold for every request. -/
theorem C10_duration_default (mac : String → String) (isoMin : ℤ → String)
    (pt : String → Option ℤ) (now : ℤ) (q : BeginQuery) (r : BeginResp)
    (h0 : 0 ≤ now)
    (hoff : 0 ≤ jsNumOr (jsParseInt q.offsetstartmin) 0)
    (hr : unlockBegin mac pt now q = .ok r)
    (q2 : TempUnlockQuery) (r2 : TempUnlockResp) :
    ((jsParseInt q.duration = none ∨ jsParseInt q.duration = some 0) →
      r.to_ - r.from_ = 15 * 60000) ∧
    (∀ dv : ℤ, jsParseInt q.duration = some dv → 0 < dv → r.to_ - r.from_ = dv * 60000) ∧
    (tempUnlockExpress mac isoMin pt now q2 = .ok r2 →
      (jsParseInt q2.duration = none ∨ jsParseInt q2.duration = some 0) →
      r2.to_ = r2.from_.map (fun s => s + 15 * 60000)) := by
  have hkey : ∀ d : ℤ, 0 ≤ d →
      jsTrunc ((now : ℚ) + (parseTimeSafeSec pt q.token / 60 +
          ((jsNumOr (jsParseInt q.offsetstartmin) 0 : ℤ) : ℚ) + (d : ℚ)) * 60000) -
        jsTrunc ((now : ℚ) + (parseTimeSafeSec pt q.token / 60 +
          ((jsNumOr (jsParseInt q.offsetstartmin) 0 : ℤ) : ℚ)) * 60000) = d * 60000 := by
    intro d hd
    have hoffq : (0 : ℚ) ≤ ((jsNumOr (jsParseInt q.offsetstartmin) 0 : ℤ) : ℚ) := by
      exact_mod_cast hoff
    have hw1 : (1 : ℚ) ≤ parseTimeSafeSec pt q.token / 60 := one_le_waitTimeMin pt q.token
    have hA1 : (0 : ℚ) ≤ (now : ℚ) + (parseTimeSafeSec pt q.token / 60 +
        ((jsNumOr (jsParseInt q.offsetstartmin) 0 : ℤ) : ℚ)) * 60000 := by
      have hnowq : (0 : ℚ) ≤ (now : ℚ) := by exact_mod_cast h0
      nlinarith
    have harg : (now : ℚ) + (parseTimeSafeSec pt q.token / 60 +
        ((jsNumOr (jsParseInt q.offsetstartmin) 0 : ℤ) : ℚ) + (d : ℚ)) * 60000 =
        ((now : ℚ) + (parseTimeSafeSec pt q.token / 60 +
          ((jsNumOr (jsParseInt q.offsetstartmin) 0 : ℤ) : ℚ)) * 60000) +
        ((d * 60000 : ℤ) : ℚ) := by
      push_cast
      ring
    have hA2 : (0 : ℚ) ≤ ((now : ℚ) + (parseTimeSafeSec pt q.token / 60 +
        ((jsNumOr (jsParseInt q.offsetstartmin) 0 : ℤ) : ℚ)) * 60000) +
        ((d * 60000 : ℤ) : ℚ) := by
      have : (0 : ℚ) ≤ ((d * 60000 : ℤ) : ℚ) := by
        have : (0 : ℤ) ≤ d * 60000 := by positivity
        exact_mod_cast this
      linarith
    rw [harg, jsTrunc_add_int _ _ hA1 hA2]
    ring
  unfold unlockBegin at hr
  split at hr
  · exact absurd hr (by simp)
  · split at hr
    · exact absurd hr (by simp)
    · rw [Except.ok.injEq] at hr
      subst hr
      dsimp only
      refine ⟨?_, ?_, ?_⟩
      · intro hd0
        have hd15 : jsNumOr (jsParseInt q.duration) DEFAULT_UNLOCK_WINDOW_MIN = 15 := by
          rcases hd0 with h | h <;> simp [jsNumOr, h, DEFAULT_UNLOCK_WINDOW_MIN]
        rw [hd15]
        exact hkey 15 (by norm_num)
      · intro dv hdv hpos
        have hddv : jsNumOr (jsParseInt q.duration) DEFAULT_UNLOCK_WINDOW_MIN = dv := by
          simp [jsNumOr, hdv, hpos.ne']
        rw [hddv]
        exact hkey dv hpos.le
      · intro h2 hd0
        unfold tempUnlockExpress at h2
        split at h2
        · exact absurd h2 (by simp)
        · unfold tempUnlockBeginAPI at h2
          split at h2
          · exact absurd h2 (by simp)
          · rw [Except.ok.injEq] at h2
            subst h2
            have hd15 : jsNumOr (jsParseInt q2.duration) DEFAULT_UNLOCK_WINDOW_MIN = 15 := by
              rcases hd0 with h | h <;> simp [jsNumOr, h, DEFAULT_UNLOCK_WINDOW_MIN]
            dsimp only
            rw [hd15]

/-- C10 counterexample: a supplied duration of `-5` minutes is not
replaced by the default: the returned window ends 300000 ms before it
starts, violating the claimed `windowEnd - windowStart >= 1` minute. -/
theorem C10_counterexample :
    unlockBegin macId ptFifteen 0
      { enckey := "E", token := "15m", tokenproof := getTimeToken macId ptFifteen "s1" "15m",
        offsetstartmin := "0", duration := "-5", salt := "s1" }
      = .ok { from_ := 900000, to_ := 600000,
              proof := getTimeEndedProof macId "s1" (some 900000) (some 600000) "E" } ∧
    ¬(60000 ≤ (600000 : ℤ) - 900000) := by
  refine ⟨?_, by decide⟩
  unfold unlockBegin
  rw [if_neg (by decide)]
  dsimp only
  rw [if_neg (by simp)]
  have hw : parseTimeSafeSec ptFifteen "15m" / 60 = 15 := by
    unfold parseTimeSafeSec parseTimeSafeMs ptFifteen jsNumOr
    norm_num
  simp only [show jsParseInt "0" = some (0 : ℤ) by decide,
    show jsParseInt "-5" = some (-5 : ℤ) by decide, jsNumOr, DEFAULT_UNLOCK_WINDOW_MIN, hw]
  norm_num
  rw [show (900000 : ℚ) = ((900000 : ℤ) : ℚ) by norm_num,
    show (600000 : ℚ) = ((600000 : ℤ) : ℚ) by norm_num, jsTrunc_intCast, jsTrunc_intCast]
  exact ⟨rfl, rfl, by decide⟩

/-- C10 witness: a positive 5-minute duration gives a window of exactly
5 minutes. -/
theorem C10_duration_default_witness :
    (BeginResp.mk 900000 1200000
        (getTimeEndedProof macId "s1" (some 900000) (some 1200000) "E")).to_ -
      (BeginResp.mk 900000 1200000
        (getTimeEndedProof macId "s1" (some 900000) (some 1200000) "E")).from_
      = 5 * 60000 := by
  have hr : unlockBegin macId ptFifteen 0
      { enckey := "E", token := "15m", tokenproof := getTimeToken macId ptFifteen "s1" "15m",
        offsetstartmin := "0", duration := "5", salt := "s1" }
      = .ok (BeginResp.mk 900000 1200000
          (getTimeEndedProof macId "s1" (some 900000) (some 1200000) "E")) := by
    unfold unlockBegin
    rw [if_neg (by decide)]
    dsimp only
    rw [if_neg (by simp)]
    have hw : parseTimeSafeSec ptFifteen "15m" / 60 = 15 := by
      unfold parseTimeSafeSec parseTimeSafeMs ptFifteen jsNumOr
      norm_num
    simp only [show jsParseInt "0" = some (0 : ℤ) by decide,
      show jsParseInt "5" = some (5 : ℤ) by decide, jsNumOr, DEFAULT_UNLOCK_WINDOW_MIN, hw]
    norm_num
    rw [show (900000 : ℚ) = ((900000 : ℤ) : ℚ) by norm_num,
      show (1200000 : ℚ) = ((1200000 : ℤ) : ℚ) by norm_num, jsTrunc_intCast, jsTrunc_intCast]
    exact ⟨rfl, rfl, by decide⟩
  exact (C10_duration_default macId isoT ptFifteen 0 _ _ (by norm_num) (by decide) hr
    ⟨"", "", "", "", "", ""⟩ ⟨none, none, ""⟩).2.1 5 (by decide) (by norm_num)
